import Mathlib

/-!
Verification development for the Switchbot BLE driver
(`src/switchbot/__init__.py`).

The Python module is shallowly embedded: the device object becomes the
record `SwitchbotState`, each method becomes a Lean function, BLE transport
behaviour is an explicit oracle (`Attempt`) describing the outcome of each
connect / write / notification-wait, exceptions (`bluepy.btle.BTLEException`)
become explicit `raised` flags, and wall-clock readings of `time.time()` are
fields of the oracle.  Times and the firmware quotient are rationals
(`ℚ`); Python byte values are `ℕ`.
-/

/-! ### Module-level constants (verbatim from the source header) -/

def DEFAULT_RETRY_COUNT : ℤ := 3

def DEFAULT_RETRY_TIMEOUT : ℚ := 2 / 10

def PRESS_KEY : String := "570100"

def ON_KEY : String := "570101"

def OFF_KEY : String := "570102"

def KEY_PREFIX : String := "5701"

def KEY_PASSWORD_PREFIX : String := "5711"

def INFO_PREFIX : String := "5712"

def ON_KEY_SUFFIX : String := "01"

def OFF_KEY_SUFFIX : String := "02"

def PRESS_KEY_SUFFIX : String := "00"

def BATTERY_CHECK_TIMEOUT_SECONDS : ℚ := 3600

def BLE_NOTIFICATION_WAIT_TIME_SECONDS : ℚ := 3

/-! ### CRC-32, modelled from the spec

`Switchbot._passwordcrc` calls `binascii.crc32`, which is Python standard
library code, not part of this repository.  Modelled from the spec:
"the 32-bit cyclic-redundancy checksum (standard CRC-32) of the UTF-8/ASCII
bytes of the password" — i.e. the usual reflected CRC-32 with polynomial
`0xEDB88320`, initial value `0xFFFFFFFF` and final xor `0xFFFFFFFF`.
The model is validated below against the standard check value
`crc32("123456789") = 0xCBF43926`.

`xor32 k a b` is bitwise xor of the low `k` bits of `a` and `b`; with
`k = 32` it is exact 32-bit xor for the values that occur here (all are
`< 2 ^ 32`).  It is structurally recursive so the kernel can evaluate it. -/

def xor32 : ℕ → ℕ → ℕ → ℕ
  | 0, _, _ => 0
  | k + 1, a, b => (if a % 2 = b % 2 then 0 else 1) + 2 * xor32 k (a / 2) (b / 2)

def CRC32_POLY : ℕ := 0xEDB88320

def crc32Round (c : ℕ) : ℕ :=
  if c % 2 = 1 then xor32 32 (c / 2) CRC32_POLY else c / 2

def crc32Rounds : ℕ → ℕ → ℕ
  | 0, c => c
  | n + 1, c => crc32Rounds n (crc32Round c)

def crc32Update (c b : ℕ) : ℕ := crc32Rounds 8 (xor32 32 c (b % 256))

def crc32Aux : List ℕ → ℕ → ℕ
  | [], c => c
  | b :: bs, c => crc32Aux bs (crc32Update c b)

def crc32 (bytes : List ℕ) : ℕ := xor32 32 (crc32Aux bytes 0xFFFFFFFF) 0xFFFFFFFF

/-- `password.encode('ascii')`: the byte sequence of an ASCII string is its
sequence of code points. -/
def asciiBytes (s : String) : List ℕ := s.data.map Char.toNat

/-! ### Python `'%x'` hexadecimal rendering

`'%x' % n` is the lowercase base-16 digit string of `n`, most significant
digit first, with no zero padding, and `"0"` for `n = 0`.  Digit fuel 8 is
enough for every call site: the formatted value is always masked to 32 bits
(`& 0xffffffff`, modelled as `% 2 ^ 32`), and `2 ^ 32 = 16 ^ 8`. -/

def hexDigitChar (d : ℕ) : Char :=
  if d < 10 then Char.ofNat (48 + d) else Char.ofNat (87 + d)

def hexDigitsAux : ℕ → ℕ → List Char
  | 0, _ => []
  | fuel + 1, n =>
    if n = 0 then [] else hexDigitsAux fuel (n / 16) ++ [hexDigitChar (n % 16)]

def pyHex (n : ℕ) : String :=
  if n = 0 then "0" else String.mk (hexDigitsAux 8 n)

/-- The sixteen lowercase hexadecimal digit characters. -/
def hexChars : List Char := "0123456789abcdef".data

/-! ### `Switchbot._passwordcrc` -/

/-- `Switchbot._passwordcrc(password)`:
`if password is None or password == "": return ""`, else
`'%x' % (binascii.crc32(password.encode('ascii')) & 0xffffffff)`.
`None` is `none`, a Python `str` is `some`; `& 0xffffffff` is `% 2 ^ 32`. -/
def passwordcrc : Option String → String
  | none => ""
  | some p => if p = "" then "" else pyHex (crc32 (asciiBytes p) % 2 ^ 32)

/-! ### Device state (`Switchbot.__init__`) -/

/-- The mutable attributes set in `Switchbot.__init__`:
`_mac`, `_device` (the bluepy peripheral handle, `None` when disconnected),
`_retry_count`, `_password_encoded` (an `Optional[str]` slot that the
constructor fills with the string `_passwordcrc(password)`, hence never
actually `None`), `_lastBattRefresh`, `_battery_percent`. -/
structure SwitchbotState where
  mac : String
  device : Option Unit
  retry_count : ℤ
  password_encoded : Option String
  lastBattRefresh : ℚ
  battery_percent : Option ℕ
deriving DecidableEq

/-- `Switchbot.__init__(mac, retry_count=DEFAULT_RETRY_COUNT, password=None)`. -/
def switchbotInit (mac : String) (retry_count : ℤ) (password : Option String) :
    SwitchbotState :=
  { mac := mac
    device := none
    retry_count := retry_count
    password_encoded := some (passwordcrc password)
    lastBattRefresh := 0
    battery_percent := none }

/-! ### `Switchbot._commandkey` -/

/-- `Switchbot._commandkey(self, key)`.  Verbatim translation — note the
source's first statement `key = ""` overwrites the argument before the
suffix dispatch, and the password test is `is not None` (true even for the
empty digest `""`). -/
def commandkey (password_encoded : Option String) (key : String) : String :=
  let key := ""
  let key_suffix := PRESS_KEY_SUFFIX
  let key_suffix := if key = ON_KEY then ON_KEY_SUFFIX
    else if key = OFF_KEY then OFF_KEY_SUFFIX else key_suffix
  match password_encoded with
  | some digest => KEY_PASSWORD_PREFIX ++ digest ++ key_suffix
  | none => KEY_PREFIX ++ key_suffix

/-! ### `SwitchBotSettingsNotificationDelegate.handleNotification` -/

/-- `handleNotification(self, cHandle, data)`:
`batt = data[1]; firmware_version = data[2] / 10.0;
self._driver._battery_percent = batt`.
Indexing a too-short payload raises `IndexError` before any state is
written, so the result is `none` exactly when an index is out of range;
otherwise the updated driver state is paired with the *local* value
`firmware_version` (which the source computes and logs but never stores). -/
def handleNotification (data : List ℕ) (s : SwitchbotState) :
    Option (SwitchbotState × ℚ) :=
  match (data[1]? : Option ℕ), (data[2]? : Option ℕ) with
  | some batt, some fw =>
    some ({ s with battery_percent := some batt }, (fw : ℚ) / 10)
  | _, _ => none

/-! ### Transport oracle

One `Attempt` records everything the BLE transport and the wall clock do
during a single pass of `_sendcommand`'s try/finally block:

* `now` — the value of `time.time()` read at the top of
  `_getBatteryPercent_FWVersion`;
* `connectOk` — whether `bluepy.btle.Peripheral(...)` succeeds;
* `enableOk` — whether the descriptor write `handler.write(a2b_hex("0100"))`
  succeeds;
* `infoWriteOk` — outcome of `self._writekey(INFO_PREFIX + digest)`:
  `none` means a raised `BTLEException`, `some b` the returned bool;
* `notified` — the result of `waitForNotifications(3.0)`;
* `tAfterWait` — the value of `time.time()` read after the wait;
* `cmdWriteOk` — outcome of `self._writekey(command)` for the command frame;
* `disconnectFails` — whether `self._device.disconnect()` raises.

The delegate callback that the transport may run inside
`waitForNotifications` is modelled separately (`handleNotification`); the
refresher model below tracks only the timestamp field that the refresher
itself owns. -/
structure Attempt where
  now : ℚ
  connectOk : Bool
  enableOk : Bool
  infoWriteOk : Option Bool
  notified : Bool
  tAfterWait : ℚ
  cmdWriteOk : Option Bool
  disconnectFails : Bool

/-- Observable actions of the driver, in order of occurrence.
`disconnectCall` marks an invocation of the `_disconnect` method;
the other constructors are transport activity and sleeps. -/
inductive Event where
  | connectAttempt : Event
  | disconnectCall : Event
  | notifyEnableWrite : Event
  | keyWrite : String → Event
  | notifWait : Event
  | sleepEv : ℚ → Event
deriving DecidableEq

/-- Result of one embedded method call: emitted events, the device state
after the call, and whether a `bluepy.btle.BTLEException` escaped it. -/
structure StepOut where
  events : List Event
  state : SwitchbotState
  raised : Bool
deriving DecidableEq

/-- Result of `_writekey`: events, whether it raised, and the returned
bool (`False` when it raised, since no value is returned then). -/
structure WriteOut where
  events : List Event
  raised : Bool
  result : Bool
deriving DecidableEq

/-- Result of `_sendcommand`: events, final state, returned bool. -/
structure SendOut where
  events : List Event
  state : SwitchbotState
  success : Bool
deriving DecidableEq

/-! ### `Switchbot._connect` and `Switchbot._disconnect` -/

/-- `Switchbot._connect`: early return if `_device is not None`; otherwise
construct the peripheral.  On `BTLEException` the handler sets
`self._device = None` and re-raises. -/
def connect (a : Attempt) (s : SwitchbotState) : StepOut :=
  if s.device.isSome then { events := [], state := s, raised := false }
  else if a.connectOk then
    { events := [Event.connectAttempt], state := { s with device := some () }, raised := false }
  else
    { events := [Event.connectAttempt], state := { s with device := none }, raised := true }

/-- `Switchbot._disconnect`: early return if `_device is None`; otherwise
`try: self._device.disconnect() except BTLEException: log-warning
finally: self._device = None`.  The `except` swallows the transport
failure (`disconnectFails`), so the call never raises, and both exit
paths leave `_device = None`. -/
def disconnect (disconnectFails : Bool) (s : SwitchbotState) : StepOut :=
  if s.device.isNone then { events := [Event.disconnectCall], state := s, raised := false }
  else
    { events := [Event.disconnectCall], state := { s with device := none }, raised := false }

/-! ### `Switchbot._writekey` -/

/-- `Switchbot._writekey(key)`: looks up the command characteristic and
writes `a2b_hex(key)` with response; any `BTLEException` from the lookup
or the write propagates (`outcome = none`), otherwise the transport's
boolean acknowledgment is returned.  The driver state is not mutated. -/
def writekey (outcome : Option Bool) (key : String) : WriteOut :=
  match outcome with
  | none => { events := [Event.keyWrite key], raised := true, result := false }
  | some b => { events := [Event.keyWrite key], raised := false, result := b }

/-! ### `Switchbot._getBatteryPercent_FWVersion` -/

/-- `Switchbot._getBatteryPercent_FWVersion`:
```
now = time.time()
if self._lastBattRefresh + BATTERY_CHECK_TIMEOUT_SECONDS >= now: return
self._device.setDelegate(...)
handler = bluepy.btle.Characteristic(self._device, "0014", 20, None, 20)
handler.write(binascii.a2b_hex("0100"))
self._writekey(INFO_PREFIX + self._password_encoded)
if self._device.waitForNotifications(3.0):
    self._lastBattRefresh = time.time()
time.sleep(1)
```
The throttle `return` happens before any transport activity.  On the
proceeding path the descriptor write or the info-frame write may raise, in
which case everything after them (including the final 1-second sleep) is
skipped.  The info-frame `_writekey` result is ignored.  The source reads
`self._password_encoded` as a string; the constructor guarantees the
`Option` is `some`. -/
def getBatteryPercent_FWVersion (a : Attempt) (s : SwitchbotState) : StepOut :=
  let now := a.now
  if s.lastBattRefresh + BATTERY_CHECK_TIMEOUT_SECONDS >= now then
    { events := [], state := s, raised := false }
  else if a.enableOk = false then
    { events := [Event.notifyEnableWrite], state := s, raised := true }
  else
    let w := writekey a.infoWriteOk (INFO_PREFIX ++ s.password_encoded.getD "")
    if w.raised then
      { events := Event.notifyEnableWrite :: w.events, state := s, raised := true }
    else
      let s1 := if a.notified then { s with lastBattRefresh := a.tAfterWait } else s
      { events := Event.notifyEnableWrite :: w.events ++ [Event.notifWait, Event.sleepEv 1],
        state := s1, raised := false }

/-! ### `Switchbot._sendcommand` and the public operations -/

/-- The try/finally body of one `_sendcommand` pass:
`try: self._connect(); self._getBatteryPercent_FWVersion();
send_success = self._writekey(command)
except BTLEException: log finally: self._disconnect()`.
`send_success` starts `False` and is only assigned from the command
write's return value; every raising path leaves it `False`.  The
`finally` invokes `_disconnect` exactly once on every path. -/
def sendAttempt (a : Attempt) (command : String) (s : SwitchbotState) : SendOut :=
  let c := connect a s
  let t : List Event × SwitchbotState × Bool :=
    if c.raised then (c.events, c.state, false)
    else
      let g := getBatteryPercent_FWVersion a c.state
      if g.raised then (c.events ++ g.events, g.state, false)
      else
        let w := writekey a.cmdWriteOk command
        (c.events ++ g.events ++ w.events, g.state, if w.raised then false else w.result)
  let d := disconnect a.disconnectFails t.2.1
  { events := t.1 ++ d.events, state := d.state, success := t.2.2 }

/-- `Switchbot._sendcommand(key, retry)`: one attempt, then
`if send_success: return send_success`, `if retry < 1: return False`,
else `time.sleep(DEFAULT_RETRY_TIMEOUT)` and recurse with `retry - 1`.
The oracle index `i` numbers the attempts; recursion is on the integer
`retry`, which the source decrements until it drops below 1. -/
def sendcommand (oracle : ℕ → Attempt) (i : ℕ) (s : SwitchbotState)
    (key : String) (retry : ℤ) : SendOut :=
  let att := sendAttempt (oracle i) (commandkey s.password_encoded key) s
  if att.success then att
  else if h : retry < 1 then att
  else
    let rest := sendcommand oracle (i + 1) att.state key (retry - 1)
    { events := att.events ++ Event.sleepEv DEFAULT_RETRY_TIMEOUT :: rest.events,
      state := rest.state, success := rest.success }
termination_by retry.toNat
decreasing_by simp_wf; omega

/-- `Switchbot.turn_on`. -/
def turn_on (oracle : ℕ → Attempt) (s : SwitchbotState) : SendOut :=
  sendcommand oracle 0 s ON_KEY s.retry_count

/-- `Switchbot.turn_off`. -/
def turn_off (oracle : ℕ → Attempt) (s : SwitchbotState) : SendOut :=
  sendcommand oracle 0 s OFF_KEY s.retry_count

/-- `Switchbot.press`. -/
def press (oracle : ℕ → Attempt) (s : SwitchbotState) : SendOut :=
  sendcommand oracle 0 s PRESS_KEY s.retry_count

/-! ### Trace counters -/

/-- How many times `_disconnect` was invoked in a trace; each attempt
emits exactly one `disconnectCall`, so this also counts attempts. -/
def countDisconnects : List Event → ℕ
  | [] => 0
  | Event.disconnectCall :: es => countDisconnects es + 1
  | _ :: es => countDisconnects es

/-- How many retry backoffs (`time.sleep(DEFAULT_RETRY_TIMEOUT)`) a trace
holds.  The refresher's settle sleep has duration 1 and is not counted. -/
def countBackoffs : List Event → ℕ
  | [] => 0
  | Event.sleepEv q :: es =>
    (if q = DEFAULT_RETRY_TIMEOUT then 1 else 0) + countBackoffs es
  | _ :: es => countBackoffs es

/-- The refresher waited and the transport reported a notification within
the 3-second window: the throttle let the call proceed, the
notification-enable write and the info-frame write went through, and
`waitForNotifications` returned `True`. -/
def notifReceived (a : Attempt) (s : SwitchbotState) : Prop :=
  s.lastBattRefresh + BATTERY_CHECK_TIMEOUT_SECONDS < a.now ∧
  a.enableOk = true ∧ a.infoWriteOk.isSome = true ∧ a.notified = true

instance (a : Attempt) (s : SwitchbotState) : Decidable (notifReceived a s) := by
  unfold notifReceived; infer_instance

/-- A transport that fails every attempt at the connect step and never
acknowledges a write. -/
def oracleAllFail : ℕ → Attempt := fun _ =>
  { now := 0, connectOk := false, enableOk := true, infoWriteOk := some false,
    notified := false, tAfterWait := 0, cmdWriteOk := some false,
    disconnectFails := false }

/-! ## Helper lemmas -/

theorem countDisconnects_append (xs ys : List Event) :
    countDisconnects (xs ++ ys) = countDisconnects xs + countDisconnects ys := by
  induction xs with
  | nil => simp [countDisconnects]
  | cons e es ih => cases e <;> simp [countDisconnects, ih] <;> omega

theorem countBackoffs_append (xs ys : List Event) :
    countBackoffs (xs ++ ys) = countBackoffs xs + countBackoffs ys := by
  induction xs with
  | nil => simp [countBackoffs]
  | cons e es ih => cases e <;> simp [countBackoffs, ih] <;> omega

theorem disconnect_events (f : Bool) (s : SwitchbotState) :
    (disconnect f s).events = [Event.disconnectCall] := by
  unfold disconnect; split <;> rfl

theorem disconnect_device (f : Bool) (s : SwitchbotState) :
    (disconnect f s).state.device = none := by
  unfold disconnect
  split
  · rename_i h; simpa [Option.isNone_iff_eq_none] using h
  · rfl

theorem disconnect_no_raise (f : Bool) (s : SwitchbotState) :
    (disconnect f s).raised = false := by
  unfold disconnect; split <;> rfl

theorem connect_disconnects (a : Attempt) (s : SwitchbotState) :
    countDisconnects (connect a s).events = 0 := by
  cases hd : s.device <;> cases hc : a.connectOk <;>
    simp [connect, hd, hc, countDisconnects]

theorem connect_backoffs (a : Attempt) (s : SwitchbotState) :
    countBackoffs (connect a s).events = 0 := by
  cases hd : s.device <;> cases hc : a.connectOk <;>
    simp [connect, hd, hc, countBackoffs]

theorem refresh_disconnects (a : Attempt) (s : SwitchbotState) :
    countDisconnects (getBatteryPercent_FWVersion a s).events = 0 := by
  by_cases h1 : s.lastBattRefresh + BATTERY_CHECK_TIMEOUT_SECONDS >= a.now <;>
  cases he : a.enableOk <;>
  cases hio : a.infoWriteOk <;>
  cases hn : a.notified <;>
  simp [getBatteryPercent_FWVersion, writekey, h1, he, hio, hn, countDisconnects]

theorem refresh_backoffs (a : Attempt) (s : SwitchbotState) :
    countBackoffs (getBatteryPercent_FWVersion a s).events = 0 := by
  by_cases h1 : s.lastBattRefresh + BATTERY_CHECK_TIMEOUT_SECONDS >= a.now <;>
  cases he : a.enableOk <;>
  cases hio : a.infoWriteOk <;>
  cases hn : a.notified <;>
  simp [getBatteryPercent_FWVersion, writekey, h1, he, hio, hn, countBackoffs,
    DEFAULT_RETRY_TIMEOUT] <;> norm_num

theorem sendAttempt_disconnects (a : Attempt) (c : String) (s : SwitchbotState) :
    countDisconnects (sendAttempt a c s).events = 1 := by
  simp only [sendAttempt]
  cases hcr : (connect a s).raised <;>
  cases hgr : (getBatteryPercent_FWVersion a (connect a s).state).raised <;>
  simp [hcr, hgr, countDisconnects_append, disconnect_events, connect_disconnects,
    refresh_disconnects, writekey, countDisconnects] <;>
  cases a.cmdWriteOk <;>
  simp [writekey, countDisconnects]

theorem sendAttempt_backoffs (a : Attempt) (c : String) (s : SwitchbotState) :
    countBackoffs (sendAttempt a c s).events = 0 := by
  simp only [sendAttempt]
  cases hcr : (connect a s).raised <;>
  cases hgr : (getBatteryPercent_FWVersion a (connect a s).state).raised <;>
  simp [hcr, hgr, countBackoffs_append, disconnect_events, connect_backoffs,
    refresh_backoffs, writekey, countBackoffs] <;>
  cases a.cmdWriteOk <;>
  simp [writekey, countBackoffs]

theorem sendAttempt_fail (a : Attempt) (c : String) (s : SwitchbotState)
    (h : a.cmdWriteOk ≠ some true) : (sendAttempt a c s).success = false := by
  simp only [sendAttempt]
  cases hcr : (connect a s).raised <;>
  cases hgr : (getBatteryPercent_FWVersion a (connect a s).state).raised <;>
  cases hw : a.cmdWriteOk <;>
  simp_all [writekey]

theorem sendcommand_allfail (oracle : ℕ → Attempt)
    (H : ∀ j, (oracle j).cmdWriteOk ≠ some true) :
    ∀ (n : ℕ) (r : ℤ), r.toNat ≤ n → ∀ (i : ℕ) (s : SwitchbotState) (key : String),
      (sendcommand oracle i s key r).success = false ∧
      countDisconnects (sendcommand oracle i s key r).events = r.toNat + 1 ∧
      countBackoffs (sendcommand oracle i s key r).events = r.toNat := by
  intro n
  induction n with
  | zero =>
    intro r hr i s key
    have h1 : r < 1 := by omega
    have hr0 : r.toNat = 0 := by omega
    rw [sendcommand.eq_def]
    simp [sendAttempt_fail _ _ _ (H i), h1, hr0, sendAttempt_disconnects,
      sendAttempt_backoffs]
  | succ n ih =>
    intro r hr i s key
    by_cases h1 : r < 1
    · have hr0 : r.toNat = 0 := by omega
      rw [sendcommand.eq_def]
      simp [sendAttempt_fail _ _ _ (H i), h1, hr0, sendAttempt_disconnects,
        sendAttempt_backoffs]
    · obtain ⟨ih1, ih2, ih3⟩ := ih (r - 1) (by omega) (i + 1)
        (sendAttempt (oracle i) (commandkey s.password_encoded key) s).state key
      rw [sendcommand.eq_def]
      simp only [sendAttempt_fail _ _ _ (H i), Bool.false_eq_true, if_false, dif_neg h1]
      refine ⟨ih1, ?_, ?_⟩
      · simp [countDisconnects_append, countDisconnects, sendAttempt_disconnects, ih2]
        omega
      · simp [countBackoffs_append, countBackoffs, sendAttempt_backoffs, ih3]
        omega

theorem sendcommand_key_irrel (oracle : ℕ → Attempt) :
    ∀ (n : ℕ) (r : ℤ), r.toNat ≤ n → ∀ (i : ℕ) (s : SwitchbotState) (k k' : String),
      sendcommand oracle i s k r = sendcommand oracle i s k' r := by
  intro n
  induction n with
  | zero =>
    intro r hr i s k k'
    have h1 : r < 1 := by omega
    conv_lhs => rw [sendcommand.eq_def]
    conv_rhs => rw [sendcommand.eq_def]
    have hck : commandkey s.password_encoded k = commandkey s.password_encoded k' := rfl
    rw [hck]
    simp [h1]
  | succ n ih =>
    intro r hr i s k k'
    conv_lhs => rw [sendcommand.eq_def]
    conv_rhs => rw [sendcommand.eq_def]
    have hck : commandkey s.password_encoded k = commandkey s.password_encoded k' := rfl
    rw [hck]
    by_cases hs : (sendAttempt (oracle i) (commandkey s.password_encoded k') s).success
    · simp [hs]
    · by_cases h1 : r < 1
      · simp [hs, h1]
      · simp [hs, h1, ih (r - 1) (by omega) (i + 1) _ k k']

/-! ## Hexadecimal rendering lemmas -/

theorem hexDigitsAux_zero (fuel : ℕ) : hexDigitsAux fuel 0 = [] := by
  cases fuel <;> rfl

theorem hexDigitsAux_length (fuel : ℕ) : ∀ n, (hexDigitsAux fuel n).length ≤ fuel := by
  induction fuel with
  | zero => intro n; simp [hexDigitsAux]
  | succ f ih =>
    intro n
    by_cases h : n = 0
    · simp [hexDigitsAux, h]
    · simp only [hexDigitsAux, if_neg h, List.length_append, List.length_singleton]
      exact Nat.add_le_add_right (ih _) 1

theorem hexDigitChar_mem : ∀ d, d < 16 → hexDigitChar d ∈ hexChars := by decide

theorem hexDigitChar_ne_zero_char : ∀ d, d < 16 → d ≠ 0 → hexDigitChar d ≠ '0' := by
  decide

theorem hexDigitsAux_chars (fuel : ℕ) :
    ∀ n c, c ∈ hexDigitsAux fuel n → c ∈ hexChars := by
  induction fuel with
  | zero => intro n c hc; simp [hexDigitsAux] at hc
  | succ f ih =>
    intro n c hc
    by_cases h : n = 0
    · simp [hexDigitsAux, h] at hc
    · simp only [hexDigitsAux, if_neg h, List.mem_append, List.mem_singleton] at hc
      rcases hc with hc | hc
      · exact ih _ _ hc
      · subst hc
        exact hexDigitChar_mem _ (Nat.mod_lt _ (by norm_num))

theorem hexDigitsAux_head (fuel : ℕ) :
    ∀ n, n ≠ 0 → n < 16 ^ fuel →
      ∃ d, d ≠ 0 ∧ d < 16 ∧ (hexDigitsAux fuel n).head? = some (hexDigitChar d) := by
  induction fuel with
  | zero =>
    intro n h0 hlt
    simp at hlt
    omega
  | succ f ih =>
    intro n h0 hlt
    by_cases hn : n / 16 = 0
    · have hn16 : n < 16 := by omega
      refine ⟨n, h0, hn16, ?_⟩
      simp [hexDigitsAux, h0, hn, hexDigitsAux_zero, Nat.mod_eq_of_lt hn16]
    · have hlt' : n / 16 < 16 ^ f := by
        rw [Nat.div_lt_iff_lt_mul (by norm_num : (0:ℕ) < 16)]
        calc n < 16 ^ (f + 1) := hlt
          _ = 16 ^ f * 16 := by ring
      obtain ⟨d, hd0, hd16, hh⟩ := ih (n / 16) hn hlt'
      refine ⟨d, hd0, hd16, ?_⟩
      simp only [hexDigitsAux, if_neg h0]
      cases hx : hexDigitsAux f (n / 16) with
      | nil => rw [hx] at hh; simp at hh
      | cons hd tl =>
        rw [hx] at hh
        simp at hh
        simp [hh]

/-! ## Claim theorems -/

/-- C1: the claim states that `_commandkey` is the pure action encoder —
empty digest gives `"5701" + suffix`, non-empty digest `D` gives
`"5711" + D + suffix` with suffix `00`/`01`/`02` for Press/On/Off.
Evaluating the translated source at the failing inputs shows otherwise:
because `_commandkey` overwrites its argument with `""` before the suffix
dispatch and tests `is not None` on a field that always holds a string
(the constructor stores `""` when there is no password), the encoder
returns the password-prefixed Press frame `"5711" + digest + "00"` for
every action, contradicting the claim for On/Off and for the no-password
frames. -/
theorem c1_commandkey_ignores_action :
    commandkey (some "") PRESS_KEY = "571100" ∧
    commandkey (some "") ON_KEY = "571100" ∧
    commandkey (some "") OFF_KEY = "571100" ∧
    commandkey (some "") ON_KEY ≠ "570101" ∧
    commandkey (some "") PRESS_KEY ≠ "570100" ∧
    commandkey (some "cafe") ON_KEY = "5711cafe00" ∧
    commandkey (some "cafe") ON_KEY ≠ "5711cafe01" := by decide

/-- C2: with `retry_count = N ≥ 0` and a transport that never returns a
successful write acknowledgment, `_sendcommand` performs exactly `N + 1`
attempts (one `_disconnect` invocation per attempt), sleeps the fixed
`DEFAULT_RETRY_TIMEOUT` (200 ms) backoff exactly `N` times — once between
consecutive attempts — and returns `False`; the `except BTLEException`
handler inside each attempt is what keeps failures from raising past the
public API, so the embedded function is total. -/
theorem c2_retry_exhaustion (oracle : ℕ → Attempt) (s : SwitchbotState)
    (key : String) (retry : ℤ) (hN : 0 ≤ retry)
    (H : ∀ j, (oracle j).cmdWriteOk ≠ some true) :
    (sendcommand oracle 0 s key retry).success = false ∧
    countDisconnects (sendcommand oracle 0 s key retry).events = retry.toNat + 1 ∧
    countBackoffs (sendcommand oracle 0 s key retry).events = retry.toNat :=
  sendcommand_allfail oracle H retry.toNat retry le_rfl 0 s key

/-- Witness for C2 at `retry_count = 3` with an always-failing transport:
4 attempts, 3 backoffs, result `False`. -/
theorem c2_retry_exhaustion_witness :
    (0 : ℤ) ≤ 3 ∧
    (sendcommand oracleAllFail 0 (switchbotInit "00:11" 3 none) ON_KEY 3).success = false ∧
    countDisconnects
        (sendcommand oracleAllFail 0 (switchbotInit "00:11" 3 none) ON_KEY 3).events =
      (3 : ℤ).toNat + 1 ∧
    countBackoffs
        (sendcommand oracleAllFail 0 (switchbotInit "00:11" 3 none) ON_KEY 3).events =
      (3 : ℤ).toNat :=
  ⟨by decide,
   c2_retry_exhaustion oracleAllFail (switchbotInit "00:11" 3 none) ON_KEY 3 (by decide)
     (fun j => by simp [oracleAllFail])⟩

/-- C3: every pass of `_sendcommand`'s try/finally block invokes
`_disconnect` exactly once (its `disconnectCall` appears once in the
attempt's trace, whatever the outcome of connect, refresh or write), and
`_disconnect` itself never lets a transport failure escape and leaves the
`_device` connection field `None` on every exit path. -/
theorem c3_disconnect_always :
    (∀ (a : Attempt) (command : String) (s : SwitchbotState),
      countDisconnects (sendAttempt a command s).events = 1) ∧
    (∀ (f : Bool) (s : SwitchbotState),
      (disconnect f s).raised = false ∧ (disconnect f s).state.device = none) :=
  ⟨sendAttempt_disconnects, fun f s => ⟨disconnect_no_raise f s, disconnect_device f s⟩⟩

/-- C4 (amended): on payload `[0x00, 0x4B, 0x1E]` the notification
listener stores `battery_percent = 0x4B = 75` (payload byte 1) in the
device state, and computes `0x1E / 10.0 = 3.0` as the local
`firmware_version` value — but that value is only logged, never written to
the device state (the source's `Switchbot` object has no firmware
attribute at all), so only the battery half of the original claim's
"writes both" holds. -/
theorem c4_battery_written (s : SwitchbotState) :
    handleNotification [0x00, 0x4B, 0x1E] s =
      some ({ s with battery_percent := some 0x4B }, 3) := by
  simp [handleNotification]
  norm_num

/-- Counterexample for C4 as stated: at payload `[0x00, 0x4B, 0x1E]` the
complete effect of the listener on a freshly-constructed device is pinned
down field by field — the post-state differs from the initial state only
in `battery_percent := some 75`; no component of the cached state holds
the decoded firmware value `3.0` (it appears only as the discarded local,
the second component of the returned pair), refuting "writes both decoded
values into the device's cached state". -/
theorem c4_firmware_not_stored_cx :
    handleNotification [0x00, 0x4B, 0x1E] (switchbotInit "de:ad:be:ef" 3 none) =
      some ({ mac := "de:ad:be:ef", device := none, retry_count := 3,
              password_encoded := some "", lastBattRefresh := 0,
              battery_percent := some 75 }, 3) := by
  simp [handleNotification, switchbotInit, passwordcrc]
  norm_num

/-- C5 (amended): the refresher touches the transport exactly when
`now - last_status_refresh` is STRICTLY greater than 3600 seconds (the
source test `self._lastBattRefresh + BATTERY_CHECK_TIMEOUT_SECONDS >= now`
skips the boundary case `now - last = 3600`); otherwise it returns
immediately with no transport activity and no error; and two refresh
calls within 3600 seconds of each other, the first successful, touch the
transport only once. -/
theorem c5_throttle_strict (a1 a2 : Attempt) (s : SwitchbotState) :
    ((getBatteryPercent_FWVersion a1 s).events ≠ [] ↔
      a1.now - s.lastBattRefresh > BATTERY_CHECK_TIMEOUT_SECONDS) ∧
    (¬ a1.now - s.lastBattRefresh > BATTERY_CHECK_TIMEOUT_SECONDS →
      getBatteryPercent_FWVersion a1 s = { events := [], state := s, raised := false }) ∧
    (a1.now - s.lastBattRefresh > BATTERY_CHECK_TIMEOUT_SECONDS →
      a1.enableOk = true → a1.infoWriteOk.isSome = true → a1.notified = true →
      a1.now ≤ a1.tAfterWait → a2.now - a1.now ≤ BATTERY_CHECK_TIMEOUT_SECONDS →
      (getBatteryPercent_FWVersion a1 s).events ≠ [] ∧
      (getBatteryPercent_FWVersion a2 (getBatteryPercent_FWVersion a1 s).state).events =
        []) := by
  refine ⟨?_, ?_, ?_⟩
  · by_cases h1 : s.lastBattRefresh + BATTERY_CHECK_TIMEOUT_SECONDS >= a1.now
    · simp [getBatteryPercent_FWVersion, h1]
      linarith
    · cases he : a1.enableOk <;> cases hio : a1.infoWriteOk <;>
        simp [getBatteryPercent_FWVersion, writekey, h1, he, hio] <;> linarith
  · intro h2
    have h1 : s.lastBattRefresh + BATTERY_CHECK_TIMEOUT_SECONDS >= a1.now := by
      push_neg at h2
      linarith
    simp [getBatteryPercent_FWVersion, h1]
  · intro hp he hio hn hclk hwin
    have h1 : ¬ s.lastBattRefresh + BATTERY_CHECK_TIMEOUT_SECONDS >= a1.now := by linarith
    obtain ⟨b, hb⟩ := Option.isSome_iff_exists.mp hio
    have hstate : (getBatteryPercent_FWVersion a1 s).state =
        { s with lastBattRefresh := a1.tAfterWait } := by
      simp [getBatteryPercent_FWVersion, writekey, h1, he, hb, hn]
    constructor
    · simp [getBatteryPercent_FWVersion, writekey, h1, he, hb, hn]
    · rw [hstate]
      have h2 : ({ s with lastBattRefresh := a1.tAfterWait } : SwitchbotState).lastBattRefresh +
          BATTERY_CHECK_TIMEOUT_SECONDS >= a2.now := by
        simp only []
        linarith
      simp [getBatteryPercent_FWVersion, h2]

/-- Witness for C5 (amended): first call at `now = 7201` with
`last = 0` proceeds (7201 > 3600), notification arrives at 7202; second
call at `now = 8000` is within 3600 s of the first and is silently
skipped, so the transport is touched only once. -/
theorem c5_throttle_strict_witness :
    ((getBatteryPercent_FWVersion ⟨7201, true, true, some true, true, 7202, some true, false⟩
        (switchbotInit "w5" 3 none)).events ≠ [] ↔
      (7201 : ℚ) - (switchbotInit "w5" 3 none).lastBattRefresh >
        BATTERY_CHECK_TIMEOUT_SECONDS) ∧
    ((getBatteryPercent_FWVersion ⟨7201, true, true, some true, true, 7202, some true, false⟩
        (switchbotInit "w5" 3 none)).events ≠ [] ∧
      (getBatteryPercent_FWVersion ⟨8000, true, true, some true, true, 8001, some true, false⟩
        (getBatteryPercent_FWVersion ⟨7201, true, true, some true, true, 7202, some true, false⟩
          (switchbotInit "w5" 3 none)).state).events = []) := by
  have h := c5_throttle_strict ⟨7201, true, true, some true, true, 7202, some true, false⟩
    ⟨8000, true, true, some true, true, 8001, some true, false⟩ (switchbotInit "w5" 3 none)
  exact ⟨h.1, h.2.2 (by norm_num [switchbotInit, BATTERY_CHECK_TIMEOUT_SECONDS]) rfl rfl rfl
    (by norm_num) (by norm_num [BATTERY_CHECK_TIMEOUT_SECONDS])⟩

/-- Counterexample for C5 as stated: at the exact boundary
`now - last_status_refresh = 3600` the claim says the refresher proceeds
(touches the transport), but the source's `>=` test makes it return
immediately — no events, state unchanged, no error — on a connected
device with a fully-willing transport. -/
theorem c5_boundary_cx :
    ((⟨3600, true, true, some true, true, 3600, some true, false⟩ : Attempt).now -
        ({ mac := "cx", device := some (), retry_count := 3, password_encoded := some "",
           lastBattRefresh := 0, battery_percent := none } : SwitchbotState).lastBattRefresh ≥
      BATTERY_CHECK_TIMEOUT_SECONDS) ∧
    getBatteryPercent_FWVersion ⟨3600, true, true, some true, true, 3600, some true, false⟩
        { mac := "cx", device := some (), retry_count := 3, password_encoded := some "",
          lastBattRefresh := 0, battery_percent := none } =
      { events := [],
        state := { mac := "cx", device := some (), retry_count := 3,
                   password_encoded := some "", lastBattRefresh := 0,
                   battery_percent := none },
        raised := false } := by
  constructor
  · norm_num [BATTERY_CHECK_TIMEOUT_SECONDS]
  · norm_num [getBatteryPercent_FWVersion, BATTERY_CHECK_TIMEOUT_SECONDS]

/-- C7: provided the wall clock does not run backwards between the two
`time.time()` reads of one refresh call (`now ≤ tAfterWait`),
`_lastBattRefresh` never decreases; it changes exactly when the
notification was confirmed received within the 3-second wait
(`notifReceived`: throttle open, enable write and info write went
through, `waitForNotifications` returned `True`), in which case it
becomes the post-wait clock reading; when the wait times out it is left
unchanged. -/
theorem c7_last_refresh_monotone (a : Attempt) (s : SwitchbotState)
    (hclock : a.now ≤ a.tAfterWait) :
    s.lastBattRefresh ≤ (getBatteryPercent_FWVersion a s).state.lastBattRefresh ∧
    ((getBatteryPercent_FWVersion a s).state.lastBattRefresh ≠ s.lastBattRefresh ↔
      notifReceived a s) ∧
    (notifReceived a s →
      (getBatteryPercent_FWVersion a s).state.lastBattRefresh = a.tAfterWait) ∧
    (a.notified = false →
      (getBatteryPercent_FWVersion a s).state.lastBattRefresh = s.lastBattRefresh) := by
  have hC : (0 : ℚ) < BATTERY_CHECK_TIMEOUT_SECONDS := by
    norm_num [BATTERY_CHECK_TIMEOUT_SECONDS]
  by_cases h1 : s.lastBattRefresh + BATTERY_CHECK_TIMEOUT_SECONDS >= a.now
  · have hnr : ¬ notifReceived a s := by
      rintro ⟨hlt, -, -, -⟩
      linarith
    simp [getBatteryPercent_FWVersion, h1, hnr]
  · cases he : a.enableOk
    · have hnr : ¬ notifReceived a s := by
        rintro ⟨-, he', -, -⟩
        simp [he] at he'
      simp [getBatteryPercent_FWVersion, h1, he, hnr]
    · cases hio : a.infoWriteOk
      · have hnr : ¬ notifReceived a s := by
          rintro ⟨-, -, hio', -⟩
          simp [hio] at hio'
        simp [getBatteryPercent_FWVersion, writekey, h1, he, hio, hnr]
      · cases hn : a.notified
        · have hnr : ¬ notifReceived a s := by
            rintro ⟨-, -, -, hn'⟩
            simp [hn] at hn'
          simp [getBatteryPercent_FWVersion, writekey, h1, he, hio, hn, hnr]
        · have hr : notifReceived a s := ⟨by linarith, he, by simp [hio], hn⟩
          have hne : a.tAfterWait ≠ s.lastBattRefresh := by
            intro heq
            have : s.lastBattRefresh + BATTERY_CHECK_TIMEOUT_SECONDS < a.now := by linarith
            linarith [hclock, heq ▸ this]
          simp [getBatteryPercent_FWVersion, writekey, h1, he, hio, hn, hr, hne]
          linarith

/-- Witness for C7: throttle open (`now = 4000 > 3600`), notification
received, post-wait clock `4100`; the timestamp advances from 0 to 4100. -/
theorem c7_last_refresh_monotone_witness :
    (switchbotInit "w7" 3 none).lastBattRefresh ≤
      (getBatteryPercent_FWVersion ⟨4000, true, true, some true, true, 4100, some true, false⟩
        (switchbotInit "w7" 3 none)).state.lastBattRefresh ∧
    ((getBatteryPercent_FWVersion ⟨4000, true, true, some true, true, 4100, some true, false⟩
        (switchbotInit "w7" 3 none)).state.lastBattRefresh ≠
        (switchbotInit "w7" 3 none).lastBattRefresh ↔
      notifReceived ⟨4000, true, true, some true, true, 4100, some true, false⟩
        (switchbotInit "w7" 3 none)) ∧
    (notifReceived ⟨4000, true, true, some true, true, 4100, some true, false⟩
        (switchbotInit "w7" 3 none) →
      (getBatteryPercent_FWVersion ⟨4000, true, true, some true, true, 4100, some true, false⟩
        (switchbotInit "w7" 3 none)).state.lastBattRefresh = 4100) ∧
    ((⟨4000, true, true, some true, true, 4100, some true, false⟩ : Attempt).notified =
        false →
      (getBatteryPercent_FWVersion ⟨4000, true, true, some true, true, 4100, some true, false⟩
        (switchbotInit "w7" 3 none)).state.lastBattRefresh =
        (switchbotInit "w7" 3 none).lastBattRefresh) :=
  c7_last_refresh_monotone ⟨4000, true, true, some true, true, 4100, some true, false⟩
    (switchbotInit "w7" 3 none) (by norm_num)

/-- C8: the listener indexes the payload at 1 and 2 with no length check;
with at least 3 bytes both accesses are in bounds and decoding succeeds,
and with fewer than 3 bytes the indexing reaches the out-of-range
(`IndexError`) branch, modelled as `none`. -/
theorem c8_payload_bounds :
    (∀ (data : List ℕ) (s : SwitchbotState), 3 ≤ data.length →
      (handleNotification data s).isSome = true) ∧
    (∀ (data : List ℕ) (s : SwitchbotState), data.length < 3 →
      handleNotification data s = none) := by
  constructor <;>
    · intro data s h
      rcases data with _ | ⟨a, _ | ⟨b, _ | ⟨c, t⟩⟩⟩ <;>
        simp_all [handleNotification] <;> omega

/-- Witness for C8: a 3-byte payload decodes; a 1-byte payload hits the
out-of-range branch. -/
theorem c8_payload_bounds_witness :
    (3 ≤ ([0x00, 0x4B, 0x1E] : List ℕ).length ∧
      (handleNotification [0x00, 0x4B, 0x1E] (switchbotInit "ff" 3 none)).isSome = true) ∧
    (([0x4B] : List ℕ).length < 3 ∧
      handleNotification [0x4B] (switchbotInit "ff" 3 none) = none) :=
  ⟨⟨by decide,
    c8_payload_bounds.1 [0x00, 0x4B, 0x1E] (switchbotInit "ff" 3 none) (by decide)⟩,
   ⟨by decide, c8_payload_bounds.2 [0x4B] (switchbotInit "ff" 3 none) (by decide)⟩⟩

/-- C9: `turn_on`, `turn_off` and `press` are extensionally equal — for
every device state and every transport behaviour they produce identical
results in full (same event trace, including every frame written to the
device, same final state, same returned bool), because `_commandkey`
overwrites its action argument and therefore does not depend on it. -/
theorem c9_actions_extensionally_equal (oracle : ℕ → Attempt) (s : SwitchbotState) :
    turn_on oracle s = turn_off oracle s ∧ turn_on oracle s = press oracle s :=
  ⟨sendcommand_key_irrel oracle s.retry_count.toNat s.retry_count le_rfl 0 s ON_KEY OFF_KEY,
   sendcommand_key_irrel oracle s.retry_count.toNat s.retry_count le_rfl 0 s ON_KEY PRESS_KEY⟩

/-- C10: the recursive `_sendcommand` terminates for every integer retry
argument (the embedding's recursion is justified by the strictly
decreasing measure `retry.toNat`, mirroring the source's `retry - 1`
recursion that stops as soon as `retry < 1`), and with an always-failing
transport it makes exactly `max(retry, 0) + 1` attempts — one attempt
even for negative retry values, which the constructor accepts unchecked —
before returning `False`. -/
theorem c10_bounded_attempts (oracle : ℕ → Attempt) (s : SwitchbotState)
    (key : String) (retry : ℤ)
    (H : ∀ j, (oracle j).cmdWriteOk ≠ some true) :
    (sendcommand oracle 0 s key retry).success = false ∧
    countDisconnects (sendcommand oracle 0 s key retry).events =
      (max retry 0).toNat + 1 := by
  obtain ⟨h1, h2, _⟩ := sendcommand_allfail oracle H retry.toNat retry le_rfl 0 s key
  refine ⟨h1, ?_⟩
  rw [h2]
  congr 1
  omega

/-- Witness for C10 at the negative retry value `-5`: a single attempt is
made (`max (-5) 0 + 1 = 1`) and the call returns `False`. -/
theorem c10_bounded_attempts_witness :
    (sendcommand oracleAllFail 0 (switchbotInit "22:33" 3 none) OFF_KEY (-5)).success =
      false ∧
    countDisconnects
        (sendcommand oracleAllFail 0 (switchbotInit "22:33" 3 none) OFF_KEY (-5)).events =
      (max (-5 : ℤ) 0).toNat + 1 :=
  c10_bounded_attempts oracleAllFail (switchbotInit "22:33" 3 none) OFF_KEY (-5)
    (fun j => by simp [oracleAllFail])

set_option maxRecDepth 100000 in
/-- C6: `_passwordcrc` is deterministic; absent (`None`) and empty
passwords give the empty digest; every non-empty password gives the
CRC-32 of its ASCII bytes masked to 32 bits and rendered by `'%x'` —
lowercase hexadecimal digits only, at most 8 of them (a 32-bit value),
with no zero padding (the leading character is not `'0'` unless the
digest is exactly `"0"`).  The CRC-32 model is pinned to the standard
check value `crc32("123456789") = 0xcbf43926`. -/
theorem c6_passwordcrc_digest :
    passwordcrc none = "" ∧
    passwordcrc (some "") = "" ∧
    (∀ p q : Option String, p = q → passwordcrc p = passwordcrc q) ∧
    (∀ p : String, p ≠ "" →
      passwordcrc (some p) = pyHex (crc32 (asciiBytes p) % 2 ^ 32)) ∧
    passwordcrc (some "123456789") = "cbf43926" ∧
    (∀ p : String, p ≠ "" →
      (passwordcrc (some p)).data.length ≤ 8 ∧
      (∀ c ∈ (passwordcrc (some p)).data, c ∈ hexChars) ∧
      (passwordcrc (some p) = "0" ∨ (passwordcrc (some p)).data.head? ≠ some '0')) := by
  refine ⟨rfl, rfl, fun p q h => by rw [h], fun p hp => by simp [passwordcrc, hp],
    by decide, ?_⟩
  intro p hp
  simp only [passwordcrc, if_neg hp]
  set v := crc32 (asciiBytes p) % 2 ^ 32 with hv
  have hvlt : v < 16 ^ 8 := by
    have h2 : v < 2 ^ 32 := Nat.mod_lt _ (by norm_num)
    calc v < 2 ^ 32 := h2
      _ = 16 ^ 8 := by norm_num
  by_cases h0 : v = 0
  · refine ⟨?_, ?_, Or.inl ?_⟩ <;> simp [pyHex, h0, hexChars]
  · have hdata : (pyHex v).data = hexDigitsAux 8 v := by
      simp [pyHex, h0]
    refine ⟨?_, ?_, Or.inr ?_⟩
    · rw [hdata]; exact hexDigitsAux_length 8 _
    · rw [hdata]; exact fun c hc => hexDigitsAux_chars 8 _ c hc
    · rw [hdata]
      obtain ⟨d, hd0, hd16, hh⟩ := hexDigitsAux_head 8 _ h0 hvlt
      rw [hh]
      simp only [ne_eq, Option.some.injEq]
      exact hexDigitChar_ne_zero_char d hd16 hd0

/-- Witness for C6 at the non-empty password `"abc"`: the digest is the
rendered masked CRC-32 and is at most 8 characters long. -/
theorem c6_passwordcrc_digest_witness :
    passwordcrc (some "abc") = pyHex (crc32 (asciiBytes "abc") % 2 ^ 32) ∧
    (passwordcrc (some "abc")).data.length ≤ 8 :=
  ⟨c6_passwordcrc_digest.2.2.2.1 "abc" (by decide),
   (c6_passwordcrc_digest.2.2.2.2.2 "abc" (by decide)).1⟩
